import Mathlib

/-!
Shallow embedding of `txn.go` from anytypeio/go-ds-mongo: the transactional
session wrapper `mongoTxn` over a `MongoDS` store, together with the
transaction factory `newTransaction` / `NewTransaction` /
`NewTransactionExtended`.

Modelling conventions:
* Remote calls (mongo session primitives and the store-delegate CRUD calls)
  are external collaborators.  Each wrapper operation therefore takes the
  outcome of its remote call(s) as an explicit oracle parameter and returns,
  besides its Go results, the list of remote calls it issued (`RemoteEvent`),
  each carrying the Go context it was issued with.
* Go contexts are modelled symbolically (`Ctx`) so that "which context was
  forwarded" is observable: `context.Background()`, caller-supplied contexts,
  `mongo.NewSessionContext`, and `context.WithTimeout`.
* Go `error` values are modelled by `GoError`; `fmt.Errorf("...: %s", err)`
  becomes a constructor carrying the underlying cause.
* The `sync.Mutex` field and the store's `sync.RWMutex` are concurrency
  devices with no sequential effect; each wrapper operation is modelled as
  one atomic step.  The `session` field itself is represented only through
  the `RemoteEvent`s issued against it.
-/

namespace GoDsMongo

/-- A datastore key (`datastore.Key`). -/
structure Key where
  raw : String
deriving DecidableEq

/-- A byte slice value. -/
abbrev Bytes := List Nat

/-- A `query.Query` value, abstract: its content never matters to `txn.go`. -/
structure Query where
  id : Nat
deriving DecidableEq

/-- `dsextensions.QueryExt`: wraps a plain query (source: `QueryExt{Query: q}`). -/
structure QueryExt where
  query : Query
deriving DecidableEq

/-- A `query.Results` handle returned by the store delegate, abstract. -/
structure Results where
  id : Nat
deriving DecidableEq

/-- An error produced by a remote mongo call, abstract up to its message. -/
structure RemoteErr where
  msg : String
deriving DecidableEq

/-- Go `error` values occurring in `txn.go`. -/
inductive GoError where
  /-- `ErrTxnFinalized = errors.New("txn was already finalized")`. -/
  | ErrTxnFinalized
  /-- `ErrClosed` (declared in the store; returned by `Put`/`Delete` when finalized). -/
  | ErrClosed
  /-- `fmt.Errorf("starting mongo session: %s", err)`. -/
  | SessionStart (cause : RemoteErr)
  /-- `fmt.Errorf("starting session txn: %s", err)`. -/
  | TxnStart (cause : RemoteErr)
  /-- `fmt.Errorf("commiting session txn: %s", err)`. -/
  | CommitFailed (cause : RemoteErr)
  /-- An error returned verbatim by a store-delegate call. -/
  | Delegate (cause : RemoteErr)
deriving DecidableEq

/-- Symbolic Go contexts, precise enough to tell the caller's raw context
from the wrapper's session-bound context and from timeout-derived ones. -/
inductive Ctx where
  /-- `context.Background()`. -/
  | background
  /-- An arbitrary caller-supplied context. -/
  | caller (id : Nat)
  /-- `mongo.NewSessionContext(base, session)`. -/
  | sessionCtx (base : Ctx)
  /-- `context.WithTimeout(base, d)`. -/
  | withTimeout (base : Ctx) (d : Nat)
deriving DecidableEq

/-- One remote call issued by the wrapper, with the context it was given. -/
inductive RemoteEvent where
  | startSession
  | startTransaction
  | commitTransaction (ctx : Ctx)
  | abortTransaction (ctx : Ctx)
  | endSession (ctx : Ctx)
  | delegateGet (ctx : Ctx) (key : Key)
  | delegateHas (ctx : Ctx) (key : Key)
  | delegateGetSize (ctx : Ctx) (key : Key)
  | delegateQuery (ctx : Ctx) (q : QueryExt)
  | delegateDelete (ctx : Ctx) (key : Key)
  | delegatePut (ctx : Ctx) (key : Key) (val : Bytes)
deriving DecidableEq

/-- Whether a remote event is an `EndSession` call. -/
def RemoteEvent.isEndSession : RemoteEvent → Bool
  | RemoteEvent.endSession _ => true
  | _ => false

/-- The fields of `MongoDS` that `txn.go` reads (`closed`, guarded by the
store's RWMutex, and the two configured timeouts). -/
structure MongoDS where
  closed : Bool
  txnTimeout : Nat
  opTimeout : Nat
deriving DecidableEq

/-- The transaction wrapper `mongoTxn`.  The `lock` field is a concurrency
device (each operation is one atomic step here) and the `session` handle is
represented only via the `RemoteEvent`s issued on it, so neither is a field. -/
structure mongoTxn where
  finalized : Bool
  m : MongoDS
  /-- `mongo.NewSessionContext(context.Background(), session)`. -/
  ctx : Ctx
deriving DecidableEq

/-- `func (m *MongoDS) newTransaction(bool) (dsextensions.TxnExt, error)`.
The `bool` parameter is unnamed and unused in the source.  `sessionErr` is
the outcome of `m.m.StartSession()`, `startTxnErr` of
`session.StartTransaction()` (`none` = success). -/
def MongoDS.newTransaction (m : MongoDS) (_ : Bool)
    (sessionErr : Option RemoteErr) (startTxnErr : Option RemoteErr) :
    Except GoError mongoTxn × List RemoteEvent :=
  if m.closed then
    (Except.error GoError.ErrClosed, [])
  else
    match sessionErr with
    | some e => (Except.error (GoError.SessionStart e), [RemoteEvent.startSession])
    | none =>
      match startTxnErr with
      | some e =>
        (Except.error (GoError.TxnStart e),
         [RemoteEvent.startSession, RemoteEvent.startTransaction])
      | none =>
        (Except.ok
          { finalized := false, m := m, ctx := Ctx.sessionCtx Ctx.background },
         [RemoteEvent.startSession, RemoteEvent.startTransaction])

/-- `func (m *MongoDS) NewTransaction(_ context.Context, readOnly bool)`:
ignores its context argument and forwards to `newTransaction`. -/
def MongoDS.NewTransaction (m : MongoDS) (_ : Ctx) (readOnly : Bool)
    (sessionErr : Option RemoteErr) (startTxnErr : Option RemoteErr) :
    Except GoError mongoTxn × List RemoteEvent :=
  m.newTransaction readOnly sessionErr startTxnErr

/-- `func (m *MongoDS) NewTransactionExtended(readOnly bool)`. -/
def MongoDS.NewTransactionExtended (m : MongoDS) (readOnly : Bool)
    (sessionErr : Option RemoteErr) (startTxnErr : Option RemoteErr) :
    Except GoError mongoTxn × List RemoteEvent :=
  m.newTransaction readOnly sessionErr startTxnErr

/-- `func (t *mongoTxn) Commit(ctx context.Context) error`.
`commitErr` is the outcome of `t.session.CommitTransaction(ctx1)`.
`EndSession` returns no value in the driver, so it has no oracle. -/
def mongoTxn.Commit (t : mongoTxn) (ctx : Ctx) (commitErr : Option RemoteErr) :
    mongoTxn × Option GoError × List RemoteEvent :=
  if t.finalized then
    (t, some GoError.ErrTxnFinalized, [])
  else
    match commitErr with
    | some e =>
      (t, some (GoError.CommitFailed e),
       [RemoteEvent.commitTransaction (Ctx.withTimeout ctx t.m.txnTimeout)])
    | none =>
      ({ t with finalized := true }, none,
       [RemoteEvent.commitTransaction (Ctx.withTimeout ctx t.m.txnTimeout),
        RemoteEvent.endSession (Ctx.withTimeout ctx t.m.opTimeout)])

/-- `func (t *mongoTxn) Discard(ctx context.Context)`.
`abortErr` is the outcome of `t.session.AbortTransaction(ctx1)`; a failure is
only logged (`log.Errorf`), so the result does not depend on it.  Note the
source never assigns `t.finalized` here: the wrapper state is returned
unchanged. -/
def mongoTxn.Discard (t : mongoTxn) (ctx : Ctx) (abortErr : Option RemoteErr) :
    mongoTxn × List RemoteEvent :=
  if t.finalized then
    (t, [])
  else
    match abortErr with
    | some _ =>
      (t, [RemoteEvent.abortTransaction (Ctx.withTimeout ctx t.m.txnTimeout),
           RemoteEvent.endSession (Ctx.withTimeout ctx t.m.opTimeout)])
    | none =>
      (t, [RemoteEvent.abortTransaction (Ctx.withTimeout ctx t.m.txnTimeout),
           RemoteEvent.endSession (Ctx.withTimeout ctx t.m.opTimeout)])

/-- `func (t *mongoTxn) Get(ctx context.Context, key datastore.Key)`.
`res` is the pair returned by `t.m.get(ctx, key)`, forwarded verbatim. -/
def mongoTxn.Get (t : mongoTxn) (ctx : Ctx) (key : Key)
    (res : Option Bytes × Option GoError) :
    (Option Bytes × Option GoError) × List RemoteEvent :=
  if t.finalized then
    ((none, some GoError.ErrTxnFinalized), [])
  else
    (res, [RemoteEvent.delegateGet ctx key])

/-- `func (t *mongoTxn) Has(ctx context.Context, key datastore.Key)`. -/
def mongoTxn.Has (t : mongoTxn) (ctx : Ctx) (key : Key)
    (res : Bool × Option GoError) :
    (Bool × Option GoError) × List RemoteEvent :=
  if t.finalized then
    ((false, some GoError.ErrTxnFinalized), [])
  else
    (res, [RemoteEvent.delegateHas ctx key])

/-- `func (t *mongoTxn) GetSize(ctx context.Context, key datastore.Key)`. -/
def mongoTxn.GetSize (t : mongoTxn) (ctx : Ctx) (key : Key)
    (res : Int × Option GoError) :
    (Int × Option GoError) × List RemoteEvent :=
  if t.finalized then
    ((0, some GoError.ErrTxnFinalized), [])
  else
    (res, [RemoteEvent.delegateGetSize ctx key])

/-- `func (t *mongoTxn) Query(ctx context.Context, q query.Query)`:
wraps `q` into `QueryExt{Query: q}` and calls `t.m.query(ctx, qe)` with the
caller's context. -/
def mongoTxn.Query (t : mongoTxn) (ctx : Ctx) (q : Query)
    (res : Option Results × Option GoError) :
    (Option Results × Option GoError) × List RemoteEvent :=
  if t.finalized then
    ((none, some GoError.ErrTxnFinalized), [])
  else
    (res, [RemoteEvent.delegateQuery ctx { query := q }])

/-- `func (t *mongoTxn) QueryExtended(q dsextensions.QueryExt)`:
has no context parameter and calls `t.m.query(t.ctx, q)` with the wrapper's
stored session context. -/
def mongoTxn.QueryExtended (t : mongoTxn) (q : QueryExt)
    (res : Option Results × Option GoError) :
    (Option Results × Option GoError) × List RemoteEvent :=
  if t.finalized then
    ((none, some GoError.ErrTxnFinalized), [])
  else
    (res, [RemoteEvent.delegateQuery t.ctx q])

/-- `func (t *mongoTxn) Delete(ctx context.Context, key datastore.Key)`:
returns `ErrClosed` (not `ErrTxnFinalized`) when finalized. -/
def mongoTxn.Delete (t : mongoTxn) (ctx : Ctx) (key : Key)
    (res : Option GoError) :
    Option GoError × List RemoteEvent :=
  if t.finalized then
    (some GoError.ErrClosed, [])
  else
    (res, [RemoteEvent.delegateDelete ctx key])

/-- `func (t *mongoTxn) Put(ctx context.Context, key datastore.Key, val []byte)`:
returns `ErrClosed` (not `ErrTxnFinalized`) when finalized. -/
def mongoTxn.Put (t : mongoTxn) (ctx : Ctx) (key : Key) (val : Bytes)
    (res : Option GoError) :
    Option GoError × List RemoteEvent :=
  if t.finalized then
    (some GoError.ErrClosed, [])
  else
    (res, [RemoteEvent.delegatePut ctx key val])

/-- A sample store configuration used by concrete witnesses. -/
def sampleDS : MongoDS :=
  { closed := false, txnTimeout := 10, opTimeout := 5 }

/-- A sample live (not finalized) wrapper used by concrete witnesses,
as `newTransaction` constructs it. -/
def sampleTxn : mongoTxn :=
  { finalized := false, m := sampleDS, ctx := Ctx.sessionCtx Ctx.background }

end GoDsMongo

namespace GoDsMongo

/-- A sample closed store used to witness the store-closed error path. -/
def closedDS : MongoDS :=
  { closed := true, txnTimeout := 10, opTimeout := 5 }

/-- Claim C1: "Discard sets finalized to true unconditionally once the abort
attempt completes, so that after any call to Discard returns, every subsequent
operation on the same wrapper fails with the already-finalized error, ...
without making any remote call."  The code violates this: `Discard` contains
no assignment to `finalized`, so the wrapper returned by `Discard` is still
live — a subsequent `Get` issues a remote delegate call and returns the
delegate's result instead of failing with `ErrTxnFinalized`. -/
theorem C1_discard_leaves_wrapper_live :
    (sampleTxn.Discard (Ctx.caller 0) none).1.finalized = false ∧
    ((sampleTxn.Discard (Ctx.caller 0) none).1.Get (Ctx.caller 1) { raw := "a" }
        (some [1], none)) =
      ((some [1], none), [RemoteEvent.delegateGet (Ctx.caller 1) { raw := "a" }]) :=
  ⟨rfl, rfl⟩

/-- Claim C7: "Discard is idempotent: a second Discard is a pure no-op — no
remote abort call and no second end-session call."  The code violates this:
because the first `Discard` never sets `finalized`, the second `Discard` takes
the non-finalized branch again and re-issues both `AbortTransaction` and
`EndSession`. -/
theorem C7_second_discard_repeats_remote_calls :
    ((sampleTxn.Discard (Ctx.caller 0) none).1.Discard (Ctx.caller 2) none).2 =
      [RemoteEvent.abortTransaction (Ctx.withTimeout (Ctx.caller 2) 10),
       RemoteEvent.endSession (Ctx.withTimeout (Ctx.caller 2) 5)] :=
  rfl

/-- Claim C9: the `finalized` flag is monotone.  `Commit` either leaves the
state unchanged or sets `finalized := true`; `Discard`, `Get`, `Has`,
`GetSize`, `Query`, `QueryExtended`, `Delete` and `Put` contain no write to
any wrapper field at all (in this embedding `Discard` returns the state
unchanged and the others return no state), so no operation ever resets
`finalized` from `true` to `false`. -/
theorem C9_finalized_monotone (t : mongoTxn) (c c' : Ctx)
    (ce ae : Option RemoteErr) :
    t.finalized ≤ (t.Commit c ce).1.finalized ∧
    ((t.Commit c ce).1.finalized = t.finalized ∨
      (t.Commit c ce).1.finalized = true) ∧
    (t.Discard c' ae).1 = t := by
  cases hf : t.finalized <;> cases ce <;> cases ae <;>
    simp [mongoTxn.Commit, mongoTxn.Discard, hf]

/-- Claim C10: the `readOnly` argument of `NewTransaction` and
`NewTransactionExtended` (and the context argument of `NewTransaction`) is
ignored: for any two calls differing only in those arguments the whole
outcome — wrapper, error, and remote calls issued — is identical, and both
entry points coincide with `newTransaction`, which discards its `bool`. -/
theorem C10_readOnly_and_ctx_ignored (m : MongoDS) (c1 c2 : Ctx) (b1 b2 : Bool)
    (se te : Option RemoteErr) :
    m.NewTransaction c1 b1 se te = m.NewTransaction c2 b2 se te ∧
    m.NewTransactionExtended b1 se te = m.NewTransactionExtended b2 se te ∧
    m.NewTransaction c1 b1 se te = m.newTransaction b2 se te :=
  ⟨rfl, rfl, rfl⟩

end GoDsMongo

namespace GoDsMongo

/-- Claim C2 counterexample: on a live wrapper, `Get` forwards the CALLER's
raw context to the store delegate, which is distinct from the wrapper's bound
session context — contradicting "forwards ... using the wrapper's bound
execution context, not the caller's raw context". -/
theorem C2_counterexample_get_forwards_caller_ctx :
    (sampleTxn.Get (Ctx.caller 7) { raw := "k" } (none, none)).2 =
      [RemoteEvent.delegateGet (Ctx.caller 7) { raw := "k" }] ∧
    Ctx.caller 7 ≠ sampleTxn.ctx :=
  ⟨rfl, by decide⟩

/-- Claim C2 amended: on a live wrapper, Put, Delete, Get, Has, GetSize and
Query all forward the caller's raw context to the store delegate; only
`QueryExtended` (which has no context parameter) uses the wrapper's bound
session context `t.ctx`. -/
theorem C2_amended_crud_forwards_caller_ctx (t : mongoTxn) (c : Ctx) (k : Key)
    (v : Bytes) (q : Query) (qe : QueryExt)
    (rg : Option Bytes × Option GoError) (rh : Bool × Option GoError)
    (rs : Int × Option GoError) (rq : Option Results × Option GoError)
    (rd rp : Option GoError) (hf : t.finalized = false) :
    (t.Get c k rg).2 = [RemoteEvent.delegateGet c k] ∧
    (t.Has c k rh).2 = [RemoteEvent.delegateHas c k] ∧
    (t.GetSize c k rs).2 = [RemoteEvent.delegateGetSize c k] ∧
    (t.Query c q rq).2 = [RemoteEvent.delegateQuery c { query := q }] ∧
    (t.Delete c k rd).2 = [RemoteEvent.delegateDelete c k] ∧
    (t.Put c k v rp).2 = [RemoteEvent.delegatePut c k v] ∧
    (t.QueryExtended qe rq).2 = [RemoteEvent.delegateQuery t.ctx qe] := by
  simp [mongoTxn.Get, mongoTxn.Has, mongoTxn.GetSize, mongoTxn.Query,
        mongoTxn.Delete, mongoTxn.Put, mongoTxn.QueryExtended, hf]

/-- Concrete instance of the amended C2 theorem on `sampleTxn`. -/
theorem C2_amended_crud_forwards_caller_ctx_witness :
    (sampleTxn.Get (Ctx.caller 1) { raw := "k" } (none, none)).2 =
      [RemoteEvent.delegateGet (Ctx.caller 1) { raw := "k" }] :=
  (C2_amended_crud_forwards_caller_ctx sampleTxn (Ctx.caller 1) { raw := "k" }
    [] { id := 0 } { query := { id := 0 } } (none, none) (false, none)
    (0, none) (none, none) none none rfl).1

/-- Claim C3 counterexample: after a successful `Commit`, a subsequent `Put`
fails with `ErrClosed`, which is a different error value than
`ErrTxnFinalized` — contradicting "the same 'transaction already finalized'
error value for every one of these operations". -/
theorem C3_counterexample_put_after_commit_errClosed :
    ((sampleTxn.Commit (Ctx.caller 0) none).1.Put (Ctx.caller 1) { raw := "a" }
        [1] none) =
      (some GoError.ErrClosed, []) ∧
    GoError.ErrClosed ≠ GoError.ErrTxnFinalized :=
  ⟨rfl, by decide⟩

/-- Claim C3 amended: after `Commit` succeeds on a live wrapper, every
subsequent operation fails locally, issuing no remote call: Get, Has,
GetSize, Query, QueryExtended and Commit return `ErrTxnFinalized`, while
Delete and Put return `ErrClosed`. -/
theorem C3_amended_ops_after_commit_fail_locally (t : mongoTxn) (c c' : Ctx)
    (k : Key) (v : Bytes) (q : Query) (qe : QueryExt) (ce : Option RemoteErr)
    (rg : Option Bytes × Option GoError) (rh : Bool × Option GoError)
    (rs : Int × Option GoError) (rq : Option Results × Option GoError)
    (rd rp : Option GoError) (hf : t.finalized = false) :
    ((t.Commit c none).1.Get c' k rg) =
      ((none, some GoError.ErrTxnFinalized), []) ∧
    ((t.Commit c none).1.Has c' k rh) =
      ((false, some GoError.ErrTxnFinalized), []) ∧
    ((t.Commit c none).1.GetSize c' k rs) =
      ((0, some GoError.ErrTxnFinalized), []) ∧
    ((t.Commit c none).1.Query c' q rq) =
      ((none, some GoError.ErrTxnFinalized), []) ∧
    ((t.Commit c none).1.QueryExtended qe rq) =
      ((none, some GoError.ErrTxnFinalized), []) ∧
    ((t.Commit c none).1.Commit c' ce) =
      ((t.Commit c none).1, some GoError.ErrTxnFinalized, []) ∧
    ((t.Commit c none).1.Delete c' k rd) = (some GoError.ErrClosed, []) ∧
    ((t.Commit c none).1.Put c' k v rp) = (some GoError.ErrClosed, []) := by
  have h1 : (t.Commit c none).1.finalized = true := by
    simp [mongoTxn.Commit, hf]
  generalize hgen : (t.Commit c none).1 = t1 at h1 ⊢
  simp [mongoTxn.Get, mongoTxn.Has, mongoTxn.GetSize, mongoTxn.Query,
        mongoTxn.QueryExtended, mongoTxn.Commit, mongoTxn.Delete,
        mongoTxn.Put, h1]

/-- Concrete instance of the amended C3 theorem on `sampleTxn`. -/
theorem C3_amended_ops_after_commit_fail_locally_witness :
    ((sampleTxn.Commit (Ctx.caller 0) none).1.Get (Ctx.caller 1) { raw := "a" }
        (none, none)) =
      ((none, some GoError.ErrTxnFinalized), []) :=
  (C3_amended_ops_after_commit_fail_locally sampleTxn (Ctx.caller 0)
    (Ctx.caller 1) { raw := "a" } [] { id := 0 } { query := { id := 0 } } none
    (none, none) (false, none) (0, none) (none, none) none none rfl).1

end GoDsMongo

namespace GoDsMongo

/-- Claim C4: when the remote commit call fails, `Commit` returns the
commit-failed error carrying the cause, the wrapper state is completely
unchanged (in particular `finalized` stays false, so the wrapper remains
Active), and a subsequent retry of `Commit` on the returned wrapper whose
remote call succeeds returns success. -/
theorem C4_commit_failure_keeps_state (t : mongoTxn) (c c' : Ctx)
    (e : RemoteErr) (hf : t.finalized = false) :
    t.Commit c (some e) =
      (t, some (GoError.CommitFailed e),
       [RemoteEvent.commitTransaction (Ctx.withTimeout c t.m.txnTimeout)]) ∧
    ((t.Commit c (some e)).1.Commit c' none).2.1 = none := by
  constructor
  · simp [mongoTxn.Commit, hf]
  · simp [mongoTxn.Commit, hf]

/-- Concrete instance of the C4 theorem on `sampleTxn`. -/
theorem C4_commit_failure_keeps_state_witness :
    sampleTxn.Commit (Ctx.caller 0) (some { msg := "boom" }) =
      (sampleTxn, some (GoError.CommitFailed { msg := "boom" }),
       [RemoteEvent.commitTransaction
          (Ctx.withTimeout (Ctx.caller 0) sampleTxn.m.txnTimeout)]) :=
  (C4_commit_failure_keeps_state sampleTxn (Ctx.caller 0) (Ctx.caller 1)
    { msg := "boom" } rfl).1

/-- Claim C5 counterexample: when the store is open, session creation
succeeds and `StartTransaction` fails, `newTransaction` returns the
transaction-start error but issues NO `EndSession` call: the session is not
released, contradicting "releases (ends) the session so no session is
leaked". -/
theorem C5_counterexample_no_endSession_on_txnStart_failure :
    sampleDS.newTransaction true none (some { msg := "x" }) =
      (Except.error (GoError.TxnStart { msg := "x" }),
       [RemoteEvent.startSession, RemoteEvent.startTransaction]) ∧
    ((sampleDS.newTransaction true none (some { msg := "x" })).2.filter
        RemoteEvent.isEndSession) = [] :=
  ⟨rfl, rfl⟩

/-- Claim C5 amended: transaction creation first checks that the owning store
is not shut down, failing with `ErrClosed` (no remote call) if it is; it
fails with the session-start error if remote session creation fails; and if
starting the remote transaction fails it fails with the transaction-start
error, but it does NOT release the session (no end-session call is issued on
this path). -/
theorem C5_amended_creation_error_paths (m : MongoDS) (ro : Bool)
    (e1 e2 : RemoteErr) (se te : Option RemoteErr) :
    (m.closed = true →
      m.newTransaction ro se te = (Except.error GoError.ErrClosed, [])) ∧
    (m.closed = false →
      m.newTransaction ro (some e1) te =
        (Except.error (GoError.SessionStart e1), [RemoteEvent.startSession])) ∧
    (m.closed = false →
      m.newTransaction ro none (some e2) =
        (Except.error (GoError.TxnStart e2),
         [RemoteEvent.startSession, RemoteEvent.startTransaction]) ∧
      ((m.newTransaction ro none (some e2)).2.filter
          RemoteEvent.isEndSession) = []) := by
  refine ⟨fun h => ?_, fun h => ?_, fun h => ?_⟩ <;>
    simp [MongoDS.newTransaction, h, RemoteEvent.isEndSession]

/-- Concrete instances of the amended C5 theorem: a closed store and a failed
transaction start. -/
theorem C5_amended_creation_error_paths_witness :
    closedDS.newTransaction true none none =
      (Except.error GoError.ErrClosed, []) ∧
    sampleDS.newTransaction true none (some { msg := "x" }) =
      (Except.error (GoError.TxnStart { msg := "x" }),
       [RemoteEvent.startSession, RemoteEvent.startTransaction]) :=
  ⟨(C5_amended_creation_error_paths closedDS true { msg := "x" } { msg := "x" }
      none none).1 rfl,
   ((C5_amended_creation_error_paths sampleDS true { msg := "x" } { msg := "x" }
      none none).2.2 rfl).1⟩

/-- Claim C6: when the remote commit call succeeds on a live wrapper,
`Commit` sets `finalized := true`, issues `EndSession` bounded by
`context.WithTimeout(ctx, opTimeout)` (the shorter operation timeout, versus
`txnTimeout` for the commit call itself), and returns `nil`.  `EndSession`
returns no value in the driver, so its outcome cannot influence — and is
never surfaced as — the result, which is unconditionally `none` here. -/
theorem C6_commit_success_finalizes_and_ends_session (t : mongoTxn) (c : Ctx)
    (hf : t.finalized = false) :
    t.Commit c none =
      ({ t with finalized := true }, none,
       [RemoteEvent.commitTransaction (Ctx.withTimeout c t.m.txnTimeout),
        RemoteEvent.endSession (Ctx.withTimeout c t.m.opTimeout)]) := by
  simp [mongoTxn.Commit, hf]

/-- Concrete instance of the C6 theorem on `sampleTxn`. -/
theorem C6_commit_success_finalizes_and_ends_session_witness :
    sampleTxn.Commit (Ctx.caller 0) none =
      ({ sampleTxn with finalized := true }, none,
       [RemoteEvent.commitTransaction
          (Ctx.withTimeout (Ctx.caller 0) sampleTxn.m.txnTimeout),
        RemoteEvent.endSession
          (Ctx.withTimeout (Ctx.caller 0) sampleTxn.m.opTimeout)]) :=
  C6_commit_success_finalizes_and_ends_session sampleTxn (Ctx.caller 0) rfl

end GoDsMongo
